import Mathlib

/-!
Shallow embedding of the address-mapper geocoding pipeline (src/app.py)
and proofs of its specification properties.

The program validates raw address strings, geocodes each record of a
batch through a single geocode function obtained at initialization time,
tracks per-record status strings and aggregate counters, and partitions
the results into success and failure sets.
-/

namespace AddressMapper

/-- A location returned by a geocode call (geopy `Location`):
latitude, longitude and the raw provider response. Coordinates are
modelled as rationals. -/
structure Location where
  latitude : ℚ
  longitude : ℚ
  raw : String
deriving DecidableEq, Repr

/-- Outcome of one call of the geocode function `geocode_func(address)`:
the call returns a location (truthy), returns `None`, or raises an
exception carrying a message. -/
inductive GeoOutcome where
  | found : Location → GeoOutcome
  | notFound : GeoOutcome
  | err : String → GeoOutcome
deriving DecidableEq, Repr

/-- One input row of the uploaded table: columns `name` and `address`. -/
structure Row where
  name : String
  address : String
deriving DecidableEq, Repr

/-- Python's `s.split(sep)` for a one-character separator, on the
character list of the string: splitting the empty string gives one empty
segment, and in general the number of segments is the number of
separator occurrences plus one. -/
def splitChar (sep : Char) : List Char → List (List Char)
  | [] => [[]]
  | c :: cs =>
      match splitChar sep cs, decide (c = sep) with
      | r, true => [] :: r
      | [], false => [[c]]
      | a :: as, false => (c :: a) :: as

/-- `is_valid_address` from src/app.py: the address must split on `,`
into at least 3 parts, contain a digit character and contain an
alphabetic character. (`address.split(',')` is `splitChar ','` on the
characters; iterating the characters of the string is iterating
`String.data`.) -/
def is_valid_address (address : String) : Bool :=
  decide (3 ≤ (splitChar ',' address.data).length)
    && address.data.any Char.isDigit
    && address.data.any Char.isAlpha

/-- Python's `s.strip()`: remove whitespace from both ends of the
string, modelled on the character list. -/
def strip (s : String) : String :=
  ⟨((s.data.dropWhile Char.isWhitespace).reverse.dropWhile Char.isWhitespace).reverse⟩

/-- Python's `s[:200] + '...'` used to truncate the raw provider
response, modelled on the character list. -/
def truncRaw (s : String) : String :=
  ⟨s.data.take 200⟩ ++ "..."

/-- Per-record result dictionary built by `process_addresses`: keys
`name`, `address`, `latitude`, `longitude`, `status`, plus `raw` added
on success and `error_details` added on an exception. -/
structure GeoResult where
  name : String
  address : String
  latitude : Option ℚ
  longitude : Option ℚ
  status : String
  raw : Option String
  error_details : Option String
deriving DecidableEq, Repr

/-- The `stats` counter dictionary of `process_addresses`. -/
structure Stats where
  success : Nat
  invalid_format : Nat
  no_results : Nat
  errors : Nat
deriving DecidableEq, Repr

/-- The initial `stats` dictionary: all counters zero. -/
def stats0 : Stats := ⟨0, 0, 0, 0⟩

/-- The body of the `for i, row in df.iterrows()` loop of
`process_addresses` for one row, threading the `stats` counters.
Returns the result appended for this row, the updated counters and the
list of addresses on which `geocode_func` was invoked for this row
(the observable call trace: empty for an invalid address, a single
call otherwise). An exception raised by `geocode_func` is modelled by
the `GeoOutcome.err` outcome, which the loop body catches and records
as status `"Error: " ++ e`. -/
def processRow (geocode : String → GeoOutcome) (row : Row) (stats : Stats) :
    GeoResult × Stats × List String :=
  let address := strip row.address
  let result : GeoResult :=
    { name := row.name, address := address, latitude := none, longitude := none,
      status := "Pending", raw := none, error_details := none }
  if is_valid_address address = false then
    ({ result with status := "Invalid format" },
     { stats with invalid_format := stats.invalid_format + 1 }, [])
  else
    match geocode address with
    | .found location =>
        ({ result with
            latitude := some location.latitude,
            longitude := some location.longitude,
            status := "Success",
            raw := some (truncRaw location.raw) },
         { stats with success := stats.success + 1 }, [address])
    | .notFound =>
        ({ result with status := "No results" },
         { stats with no_results := stats.no_results + 1 }, [address])
    | .err e =>
        ({ result with status := "Error: " ++ e, error_details := some e },
         { stats with errors := stats.errors + 1 }, [address])

/-- The loop of `process_addresses` over the remaining rows, threading
the accumulated `stats`; produces the `results` list in row order, the
final counters, and the concatenated geocode call trace. -/
def processLoop (geocode : String → GeoOutcome) :
    List Row → Stats → List GeoResult × Stats × List String
  | [], stats => ([], stats, [])
  | row :: rest, stats =>
      let step := processRow geocode row stats
      let tail := processLoop geocode rest step.2.1
      (step.1 :: tail.1, tail.2.1, step.2.2 ++ tail.2.2)

/-- `process_addresses(df, geocode_func)` from src/app.py: processes
every row in order starting from zeroed counters and returns
`(results, stats)`, here together with the geocode call trace. -/
def process_addresses (df : List Row) (geocode : String → GeoOutcome) :
    List GeoResult × Stats × List String :=
  processLoop geocode df stats0

/-- `init_geocoder` from src/app.py: construct the Nominatim-backed
geocode function; if its construction raises, fall back to a GoogleV3
geocode function when a `GOOGLE_API_KEY` secret is present and its
construction succeeds; otherwise return `None`. `nominatimOk` and
`googleOk` model whether each constructor raises; the two functions are
the rate-limited `geocode` callables the providers would give. -/
def init_geocoder (nominatimOk : Bool) (googleKey : Option String) (googleOk : Bool)
    (nominatimFun googleFun : String → GeoOutcome) :
    Option (String → GeoOutcome) :=
  if nominatimOk then
    some nominatimFun
  else
    match googleKey with
    | some _ => if googleOk then some googleFun else none
    | none => none

/-- The success-set partition of `main`:
`geo_df[geo_df['status'] == 'Success']`. -/
def successSet (results : List GeoResult) : List GeoResult :=
  results.filter (fun r => r.status == "Success")

/-- The failure-set partition of `main`:
`geo_df[geo_df['status'] != 'Success']`. -/
def failureSet (results : List GeoResult) : List GeoResult :=
  results.filter (fun r => !(r.status == "Success"))

/-- The batch part of `main` from src/app.py: if `init_geocoder`
returned `None`, `main` errors out and no batch runs; otherwise the
whole batch is processed and both partitions are produced. -/
def mainProcess (geocoderInit : Option (String → GeoOutcome)) (df : List Row) :
    Option (List GeoResult × Stats × List String × List GeoResult × List GeoResult) :=
  match geocoderInit with
  | none => none
  | some geocode =>
      let out := process_addresses df geocode
      some (out.1, out.2.1, out.2.2, successSet out.1, failureSet out.1)

/-- Modelled from the spec: the `Coordinates` pair consumed by
`SpatialClusterer` (§3, §4.6); the clusterer itself is absent from
src/. -/
structure Coordinates where
  latitude : ℚ
  longitude : ℚ
deriving DecidableEq, Repr

/-- Bounded reachability closure: repeatedly add the `adj`-successors of
the already-collected vertices, `fuel` times, skipping duplicates. With
`fuel` at least the number of vertices this reaches the whole connected
component. -/
def bfsExpand (adj : Nat → List Nat) : Nat → List Nat → List Nat
  | 0, s => s
  | fuel + 1, s =>
      bfsExpand adj fuel
        ((s.flatMap adj).foldl (fun acc x => if x ∈ acc then acc else acc ++ [x]) s)

/-- Modelled from the spec: the epsilon-neighborhood of point `i`
(§4.6, glossary) — the indices of the points within `epsilonKm` of it
under the neighborhood metric, the point itself included. -/
def nbrs (distKm : Coordinates → Coordinates → ℚ) (pts : List Coordinates)
    (epsilonKm : ℚ) (i : Nat) : List Nat :=
  (List.range pts.length).filter
    (fun j => decide (distKm (pts.getD i ⟨0, 0⟩) (pts.getD j ⟨0, 0⟩) ≤ epsilonKm))

/-- Modelled from the spec: a DBSCAN core point — a point with at least
`minPoints` neighbors within `epsilonKm` (glossary, §4.6). -/
def isCorePt (distKm : Coordinates → Coordinates → ℚ) (pts : List Coordinates)
    (epsilonKm : ℚ) (minPoints : Nat) (i : Nat) : Bool :=
  decide (minPoints ≤ (nbrs distKm pts epsilonKm i).length)

/-- Modelled from the spec: the indices of the core points. -/
def corePts (distKm : Coordinates → Coordinates → ℚ) (pts : List Coordinates)
    (epsilonKm : ℚ) (minPoints : Nat) : List Nat :=
  (List.range pts.length).filter (isCorePt distKm pts epsilonKm minPoints)

/-- Modelled from the spec: the cluster identifier attached to the
density-connected component of core point `c` — the least core index
reachable from `c` through epsilon-adjacent core points. Identifiers
are arbitrary labels (§4.6), only membership matters. -/
def clusterLabel (distKm : Coordinates → Coordinates → ℚ) (pts : List Coordinates)
    (epsilonKm : ℚ) (minPoints : Nat) (c : Nat) : Int :=
  ((bfsExpand
      (fun i => (nbrs distKm pts epsilonKm i).filter (isCorePt distKm pts epsilonKm minPoints))
      pts.length [c]).foldl Nat.min c : Nat)

/-- Modelled from the spec: `SpatialClusterer.cluster` (§4.6), absent
from src/. DBSCAN semantics: clusters are the density-connected
components of core points, and any point within `epsilonKm` of a core
point joins that core's cluster; every other point is noise,
`clusterId = -1`. The great-circle (haversine) kilometre distance is
irrational-valued, so the neighborhood metric is a parameter `distKm`.
One assignment per input point, in input order. -/
def cluster (distKm : Coordinates → Coordinates → ℚ) (pts : List Coordinates)
    (epsilonKm : ℚ) (minPoints : Nat) : List Int :=
  (List.range pts.length).map (fun i =>
    match (corePts distKm pts epsilonKm minPoints).filter
        (fun c => (nbrs distKm pts epsilonKm c).contains i) with
    | [] => (-1 : Int)
    | c :: _ => clusterLabel distKm pts epsilonKm minPoints c)

/-! ### Helper lemmas about the batch loop -/

/-- The result built for a row by the loop body; the result component of
`processRow` does not depend on the threaded counters. -/
def rowResult (geocode : String → GeoOutcome) (row : Row) : GeoResult :=
  (processRow geocode row stats0).1

/-- The geocode calls made for a row by the loop body. -/
def rowCalls (geocode : String → GeoOutcome) (row : Row) : List String :=
  (processRow geocode row stats0).2.2

theorem processRow_fst (geocode : String → GeoOutcome) (row : Row) (stats : Stats) :
    (processRow geocode row stats).1 = rowResult geocode row := by
  unfold rowResult processRow
  cases hv : is_valid_address (strip row.address) <;>
    cases hg : geocode (strip row.address) <;> simp [hv, hg]

theorem processRow_calls (geocode : String → GeoOutcome) (row : Row) (stats : Stats) :
    (processRow geocode row stats).2.2 = rowCalls geocode row := by
  unfold rowCalls processRow
  cases hv : is_valid_address (strip row.address) <;>
    cases hg : geocode (strip row.address) <;> simp [hv, hg]

theorem rowCalls_eq (geocode : String → GeoOutcome) (row : Row) :
    rowCalls geocode row =
      if is_valid_address (strip row.address) then [strip row.address] else [] := by
  unfold rowCalls processRow
  cases hv : is_valid_address (strip row.address) <;>
    cases hg : geocode (strip row.address) <;> simp [hv, hg]

theorem processLoop_results (geocode : String → GeoOutcome) (df : List Row) (stats : Stats) :
    (processLoop geocode df stats).1 = df.map (rowResult geocode) := by
  induction df generalizing stats with
  | nil => rfl
  | cons row rest ih => simp [processLoop, processRow_fst, ih]

theorem processLoop_calls (geocode : String → GeoOutcome) (df : List Row) (stats : Stats) :
    (processLoop geocode df stats).2.2 = df.flatMap (rowCalls geocode) := by
  induction df generalizing stats with
  | nil => rfl
  | cons row rest ih => simp [processLoop, processRow_calls, ih, List.flatMap_cons]

theorem processRow_invalid (geocode : String → GeoOutcome) (row : Row) (stats : Stats)
    (hv : is_valid_address (strip row.address) = false) :
    processRow geocode row stats =
      ({ name := row.name, address := strip row.address, latitude := none, longitude := none,
         status := "Invalid format", raw := none, error_details := none },
       { stats with invalid_format := stats.invalid_format + 1 }, []) := by
  unfold processRow
  simp [hv]

theorem processRow_found (geocode : String → GeoOutcome) (row : Row) (stats : Stats)
    (location : Location) (hv : is_valid_address (strip row.address) = true)
    (hg : geocode (strip row.address) = .found location) :
    processRow geocode row stats =
      ({ name := row.name, address := strip row.address,
         latitude := some location.latitude, longitude := some location.longitude,
         status := "Success", raw := some (truncRaw location.raw), error_details := none },
       { stats with success := stats.success + 1 }, [strip row.address]) := by
  unfold processRow
  simp [hv, hg]

theorem processRow_notFound (geocode : String → GeoOutcome) (row : Row) (stats : Stats)
    (hv : is_valid_address (strip row.address) = true)
    (hg : geocode (strip row.address) = .notFound) :
    processRow geocode row stats =
      ({ name := row.name, address := strip row.address, latitude := none, longitude := none,
         status := "No results", raw := none, error_details := none },
       { stats with no_results := stats.no_results + 1 }, [strip row.address]) := by
  unfold processRow
  simp [hv, hg]

theorem processRow_err (geocode : String → GeoOutcome) (row : Row) (stats : Stats)
    (e : String) (hv : is_valid_address (strip row.address) = true)
    (hg : geocode (strip row.address) = .err e) :
    processRow geocode row stats =
      ({ name := row.name, address := strip row.address, latitude := none, longitude := none,
         status := "Error: " ++ e, raw := none, error_details := some e },
       { stats with errors := stats.errors + 1 }, [strip row.address]) := by
  unfold processRow
  simp [hv, hg]

/-- A status of the shape `"Error: " ++ e` differs from any string whose
first character is not `'E'`. -/
theorem error_append_ne (e t : String) (ht : t.data.head? ≠ some 'E') :
    "Error: " ++ e ≠ t := by
  intro h
  apply ht
  rw [← h]
  rfl

/-- `"Error".data` is a prefix of the character data of
`"Error: " ++ e`. -/
theorem errPrefix_append (e : String) :
    "Error".data.isPrefixOf ("Error: " ++ e).data = true := by
  rw [String.data_append]
  simp [List.isPrefixOf]

/-- Number of results carrying exactly the given status string. -/
def countStatus (results : List GeoResult) (st : String) : Nat :=
  (results.filter (fun r => r.status == st)).length

/-- Number of results whose status string starts with `"Error"`. -/
def countErrors (results : List GeoResult) : Nat :=
  (results.filter (fun r => "Error".data.isPrefixOf r.status.data)).length

theorem countStatus_cons (r : GeoResult) (results : List GeoResult) (st : String) :
    countStatus (r :: results) st =
      countStatus results st + (if r.status == st then 1 else 0) := by
  simp only [countStatus, List.filter_cons]
  by_cases h : (r.status == st) = true <;> simp [h, Nat.add_comm]

theorem countErrors_cons (r : GeoResult) (results : List GeoResult) :
    countErrors (r :: results) =
      countErrors results + (if "Error".data.isPrefixOf r.status.data then 1 else 0) := by
  simp only [countErrors, List.filter_cons]
  by_cases h : "Error".data.isPrefixOf r.status.data = true <;> simp [h, Nat.add_comm]

theorem err_beq_false (e t : String) (ht : t.data.head? ≠ some 'E') :
    (("Error: " ++ e : String) == t) = false :=
  beq_eq_false_iff_ne.mpr (error_append_ne e t ht)

theorem processLoop_stats (geocode : String → GeoOutcome) (df : List Row) (stats : Stats) :
    (processLoop geocode df stats).2.1 =
      { success := stats.success + countStatus (df.map (rowResult geocode)) "Success",
        invalid_format :=
          stats.invalid_format + countStatus (df.map (rowResult geocode)) "Invalid format",
        no_results := stats.no_results + countStatus (df.map (rowResult geocode)) "No results",
        errors := stats.errors + countErrors (df.map (rowResult geocode)) } := by
  induction df generalizing stats with
  | nil => simp [processLoop, countStatus, countErrors]
  | cons row rest ih =>
      have hstep : (processLoop geocode (row :: rest) stats).2.1 =
          (processLoop geocode rest (processRow geocode row stats).2.1).2.1 := rfl
      rw [hstep, ih, List.map_cons, countStatus_cons, countStatus_cons, countStatus_cons,
        countErrors_cons]
      cases hv : is_valid_address (strip row.address) with
      | false =>
          rw [show rowResult geocode row = (processRow geocode row stats0).1 from rfl,
            processRow_invalid geocode row stats hv, processRow_invalid geocode row stats0 hv]
          simp +decide [Stats.mk.injEq]
          omega
      | true =>
          cases hg : geocode (strip row.address) with
          | found loc =>
              rw [show rowResult geocode row = (processRow geocode row stats0).1 from rfl,
                processRow_found geocode row stats loc hv hg,
                processRow_found geocode row stats0 loc hv hg]
              simp +decide [Stats.mk.injEq]
              omega
          | notFound =>
              rw [show rowResult geocode row = (processRow geocode row stats0).1 from rfl,
                processRow_notFound geocode row stats hv hg,
                processRow_notFound geocode row stats0 hv hg]
              simp +decide [Stats.mk.injEq]
              omega
          | err e =>
              rw [show rowResult geocode row = (processRow geocode row stats0).1 from rfl,
                processRow_err geocode row stats e hv hg,
                processRow_err geocode row stats0 e hv hg]
              simp [Stats.mk.injEq, errPrefix_append,
                err_beq_false e "Success" (by decide),
                err_beq_false e "Invalid format" (by decide),
                err_beq_false e "No results" (by decide)]
              omega

theorem rowResult_status_cases (geocode : String → GeoOutcome) (row : Row) :
    (rowResult geocode row).status = "Success" ∨
    (rowResult geocode row).status = "Invalid format" ∨
    (rowResult geocode row).status = "No results" ∨
    ∃ e, (rowResult geocode row).status = "Error: " ++ e := by
  unfold rowResult
  cases hv : is_valid_address (strip row.address) with
  | false =>
      rw [processRow_invalid geocode row stats0 hv]
      right; left; rfl
  | true =>
      cases hg : geocode (strip row.address) with
      | found loc =>
          rw [processRow_found geocode row stats0 loc hv hg]
          left; rfl
      | notFound =>
          rw [processRow_notFound geocode row stats0 hv hg]
          right; right; left; rfl
      | err e =>
          rw [processRow_err geocode row stats0 e hv hg]
          exact Or.inr (Or.inr (Or.inr ⟨e, rfl⟩))

theorem rowResult_status_ne_pending (geocode : String → GeoOutcome) (row : Row) :
    (rowResult geocode row).status ≠ "Pending" := by
  rcases rowResult_status_cases geocode row with h | h | h | ⟨e, h⟩ <;> rw [h]
  · decide
  · decide
  · decide
  · exact error_append_ne e "Pending" (by decide)

theorem rowResult_coords (geocode : String → GeoOutcome) (row : Row)
    (hg : ∀ a loc, geocode a = GeoOutcome.found loc →
      -90 ≤ loc.latitude ∧ loc.latitude ≤ 90 ∧ -180 ≤ loc.longitude ∧ loc.longitude ≤ 180) :
    (((rowResult geocode row).latitude ≠ none ∧ (rowResult geocode row).longitude ≠ none) ↔
      (rowResult geocode row).status = "Success") ∧
    ((rowResult geocode row).status = "Success" →
      ∃ la lo, (rowResult geocode row).latitude = some la ∧
        (rowResult geocode row).longitude = some lo ∧
        -90 ≤ la ∧ la ≤ 90 ∧ -180 ≤ lo ∧ lo ≤ 180) ∧
    ((rowResult geocode row).status ≠ "Success" →
      (rowResult geocode row).latitude = none ∧ (rowResult geocode row).longitude = none) := by
  unfold rowResult
  cases hv : is_valid_address (strip row.address) with
  | false =>
      rw [processRow_invalid geocode row stats0 hv]
      refine ⟨?_, ?_, ?_⟩ <;> simp +decide
  | true =>
      cases hgc : geocode (strip row.address) with
      | found loc =>
          rw [processRow_found geocode row stats0 loc hv hgc]
          obtain ⟨h1, h2, h3, h4⟩ := hg _ _ hgc
          exact ⟨by simp, fun _ => ⟨loc.latitude, loc.longitude, rfl, rfl, h1, h2, h3, h4⟩,
            fun h => absurd rfl h⟩
      | notFound =>
          rw [processRow_notFound geocode row stats0 hv hgc]
          refine ⟨?_, ?_, ?_⟩ <;> simp +decide
      | err e =>
          rw [processRow_err geocode row stats0 e hv hgc]
          refine ⟨?_, ?_, ?_⟩
          · simp [error_append_ne e "Success" (by decide)]
          · intro h
            exact absurd h (error_append_ne e "Success" (by decide))
          · intro h
            exact ⟨rfl, rfl⟩

theorem counts_sum (geocode : String → GeoOutcome) (df : List Row) :
    countStatus (df.map (rowResult geocode)) "Success" +
      countStatus (df.map (rowResult geocode)) "Invalid format" +
      countStatus (df.map (rowResult geocode)) "No results" +
      countErrors (df.map (rowResult geocode)) = df.length := by
  induction df with
  | nil => rfl
  | cons row rest ih =>
      rw [List.map_cons, countStatus_cons, countStatus_cons, countStatus_cons, countErrors_cons,
        List.length_cons]
      rcases rowResult_status_cases geocode row with h | h | h | ⟨e, h⟩ <;> rw [h]
      · simp +decide
        omega
      · simp +decide
        omega
      · simp +decide
        omega
      · simp [errPrefix_append, err_beq_false e "Success" (by decide),
          err_beq_false e "Invalid format" (by decide), err_beq_false e "No results" (by decide)]
        omega

/-! ### Claim theorems -/

/-- C1 (counterexample): the claim says any address with at least 3
comma-separated segments containing an alphabetic character is accepted
even without a digit; but `is_valid_address` rejects
`"abc, def, ghi"`, which has 3 segments and alphabetic characters and
no digit. -/
theorem validate_rejects_all_alpha_address :
    3 ≤ (splitChar ',' "abc, def, ghi".data).length ∧
    "abc, def, ghi".data.any Char.isAlpha = true ∧
    is_valid_address "abc, def, ghi" = false := by
  decide

/-- C1 (amended): `is_valid_address` accepts exactly the strings with
at least 3 comma-separated segments that contain at least one digit
character and at least one alphabetic character; it rejects whenever
any of the three conditions fails, in particular whenever the string
has no digit, even if it has alphabetic characters. -/
theorem is_valid_address_iff (address : String) :
    is_valid_address address = true ↔
      3 ≤ (splitChar ',' address.data).length ∧
      (∃ c ∈ address.data, c.isDigit = true) ∧
      (∃ c ∈ address.data, c.isAlpha = true) := by
  simp [is_valid_address, List.any_eq_true, and_assoc]

/-- C8: every address string with fewer than 3 comma-separated segments
is rejected by the validator. -/
theorem short_address_invalid (address : String)
    (h : (splitChar ',' address.data).length < 3) :
    is_valid_address address = false := by
  unfold is_valid_address
  rw [decide_eq_false (Nat.not_le.mpr h)]
  rfl

/-- C8 (witness): `"a,b"` has 2 comma-separated segments and is
rejected. -/
theorem short_address_invalid_witness :
    (splitChar ',' "a,b".data).length < 3 ∧ is_valid_address "a,b" = false :=
  ⟨by decide, short_address_invalid "a,b" (by decide)⟩

/-- C4: the batch produces exactly one result per input record —
the result list is the row-wise image of the input, so its length
equals the input length and results appear in input order. -/
theorem results_one_per_record_in_order (df : List Row) (geocode : String → GeoOutcome) :
    (process_addresses df geocode).1 = df.map (rowResult geocode) ∧
    (process_addresses df geocode).1.length = df.length := by
  have h : (process_addresses df geocode).1 = df.map (rowResult geocode) :=
    processLoop_results geocode df stats0
  refine ⟨h, ?_⟩
  rw [h, List.length_map]

/-- C9: every returned result carries a final status — `"Success"`,
`"Invalid format"`, `"No results"` or an error string of the form
`"Error: " ++ e` — and the initial `"Pending"` placeholder never
appears among the returned results. -/
theorem results_status_final (df : List Row) (geocode : String → GeoOutcome) :
    ∀ r ∈ (process_addresses df geocode).1,
      (r.status = "Success" ∨ r.status = "Invalid format" ∨ r.status = "No results" ∨
        ∃ e, r.status = "Error: " ++ e) ∧ r.status ≠ "Pending" := by
  intro r hr
  rw [show (process_addresses df geocode).1 = df.map (rowResult geocode) from
    processLoop_results geocode df stats0] at hr
  obtain ⟨row, hrow, rfl⟩ := List.mem_map.1 hr
  exact ⟨rowResult_status_cases geocode row, rowResult_status_ne_pending geocode row⟩

/-- C9 (witness): instantiated on a one-record batch whose geocode call
finds nothing. -/
theorem results_status_final_witness :
    ((rowResult (fun _ => GeoOutcome.notFound) ⟨"A", "1 a, b, c"⟩).status = "Success" ∨
      (rowResult (fun _ => GeoOutcome.notFound) ⟨"A", "1 a, b, c"⟩).status = "Invalid format" ∨
      (rowResult (fun _ => GeoOutcome.notFound) ⟨"A", "1 a, b, c"⟩).status = "No results" ∨
      ∃ e, (rowResult (fun _ => GeoOutcome.notFound) ⟨"A", "1 a, b, c"⟩).status =
        "Error: " ++ e) ∧
    (rowResult (fun _ => GeoOutcome.notFound) ⟨"A", "1 a, b, c"⟩).status ≠ "Pending" :=
  results_status_final [⟨"A", "1 a, b, c"⟩] (fun _ => GeoOutcome.notFound)
    (rowResult (fun _ => GeoOutcome.notFound) ⟨"A", "1 a, b, c"⟩) (by decide)

/-- C10: the incrementally accumulated counters equal the counts
recomputed from the returned results, and the four counters sum to the
number of input records. -/
theorem stats_match_recount (df : List Row) (geocode : String → GeoOutcome) :
    (process_addresses df geocode).2.1.success =
      countStatus (process_addresses df geocode).1 "Success" ∧
    (process_addresses df geocode).2.1.invalid_format =
      countStatus (process_addresses df geocode).1 "Invalid format" ∧
    (process_addresses df geocode).2.1.no_results =
      countStatus (process_addresses df geocode).1 "No results" ∧
    (process_addresses df geocode).2.1.errors = countErrors (process_addresses df geocode).1 ∧
    (process_addresses df geocode).2.1.success + (process_addresses df geocode).2.1.invalid_format
      + (process_addresses df geocode).2.1.no_results + (process_addresses df geocode).2.1.errors
      = df.length := by
  have hres : (process_addresses df geocode).1 = df.map (rowResult geocode) :=
    processLoop_results geocode df stats0
  have hst := processLoop_stats geocode df stats0
  rw [show (process_addresses df geocode).2.1 = (processLoop geocode df stats0).2.1 from rfl]
  rw [hres, hst]
  simp only []
  refine ⟨by simp [stats0], by simp [stats0], by simp [stats0], by simp [stats0], ?_⟩
  simp only [stats0]
  have := counts_sum geocode df
  omega

/-- C5: records that fail validation are marked `"Invalid format"` and
trigger no geocode call — every address in the call trace passed
validation, and an invalid record contributes no call at all. -/
theorem invalid_records_no_geocode_call (df : List Row) (geocode : String → GeoOutcome) :
    (∀ a ∈ (process_addresses df geocode).2.2, is_valid_address a = true) ∧
    (∀ row ∈ df, is_valid_address (strip row.address) = false →
      (rowResult geocode row).status = "Invalid format" ∧ rowCalls geocode row = []) := by
  constructor
  · intro a ha
    rw [show (process_addresses df geocode).2.2 = df.flatMap (rowCalls geocode) from
      processLoop_calls geocode df stats0] at ha
    obtain ⟨row, hrow, hmem⟩ := List.mem_flatMap.1 ha
    rw [rowCalls_eq] at hmem
    cases hv : is_valid_address (strip row.address) with
    | false =>
        simp [hv] at hmem
    | true =>
        simp [hv] at hmem
        rw [hmem]
        exact hv
  · intro row hrow hv
    constructor
    · show ((processRow geocode row stats0).1).status = "Invalid format"
      rw [processRow_invalid geocode row stats0 hv]
    · rw [rowCalls_eq]
      simp [hv]

/-- C5 (witness): the single-segment, digit-free address
`"not an address"` is marked `"Invalid format"` and produces no
geocode call. -/
theorem invalid_records_no_geocode_call_witness :
    (rowResult (fun _ => GeoOutcome.notFound) ⟨"B", "not an address"⟩).status =
      "Invalid format" ∧
    rowCalls (fun _ => GeoOutcome.notFound) ⟨"B", "not an address"⟩ = [] :=
  (invalid_records_no_geocode_call [⟨"B", "not an address"⟩] (fun _ => GeoOutcome.notFound)).2
    ⟨"B", "not an address"⟩ (by decide) (by decide)

/-- C3: in every produced result, coordinates are non-null exactly when
the status is `"Success"`; under the provider contract that found
locations carry coordinates in `[-90,90] × [-180,180]`, a `"Success"`
result's coordinates lie in those ranges, and every other status has
both coordinates null. -/
theorem results_coords_iff_success (df : List Row) (geocode : String → GeoOutcome)
    (hg : ∀ a loc, geocode a = GeoOutcome.found loc →
      -90 ≤ loc.latitude ∧ loc.latitude ≤ 90 ∧ -180 ≤ loc.longitude ∧ loc.longitude ≤ 180) :
    ∀ r ∈ (process_addresses df geocode).1,
      ((r.latitude ≠ none ∧ r.longitude ≠ none) ↔ r.status = "Success") ∧
      (r.status = "Success" → ∃ la lo, r.latitude = some la ∧ r.longitude = some lo ∧
        -90 ≤ la ∧ la ≤ 90 ∧ -180 ≤ lo ∧ lo ≤ 180) ∧
      (r.status ≠ "Success" → r.latitude = none ∧ r.longitude = none) := by
  intro r hr
  rw [show (process_addresses df geocode).1 = df.map (rowResult geocode) from
    processLoop_results geocode df stats0] at hr
  obtain ⟨row, hrow, rfl⟩ := List.mem_map.1 hr
  exact rowResult_coords geocode row hg

/-- C3 (witness): instantiated on a one-record batch whose geocode call
finds `(48, 2)`. -/
theorem results_coords_iff_success_witness :
    (((rowResult (fun _ => GeoOutcome.found ⟨48, 2, "x"⟩) ⟨"A", "1 a, b, c"⟩).latitude ≠ none ∧
        (rowResult (fun _ => GeoOutcome.found ⟨48, 2, "x"⟩) ⟨"A", "1 a, b, c"⟩).longitude ≠
          none) ↔
      (rowResult (fun _ => GeoOutcome.found ⟨48, 2, "x"⟩) ⟨"A", "1 a, b, c"⟩).status =
        "Success") ∧
    ((rowResult (fun _ => GeoOutcome.found ⟨48, 2, "x"⟩) ⟨"A", "1 a, b, c"⟩).status =
        "Success" →
      ∃ la lo,
        (rowResult (fun _ => GeoOutcome.found ⟨48, 2, "x"⟩) ⟨"A", "1 a, b, c"⟩).latitude =
          some la ∧
        (rowResult (fun _ => GeoOutcome.found ⟨48, 2, "x"⟩) ⟨"A", "1 a, b, c"⟩).longitude =
          some lo ∧
        -90 ≤ la ∧ la ≤ 90 ∧ -180 ≤ lo ∧ lo ≤ 180) ∧
    ((rowResult (fun _ => GeoOutcome.found ⟨48, 2, "x"⟩) ⟨"A", "1 a, b, c"⟩).status ≠
        "Success" →
      (rowResult (fun _ => GeoOutcome.found ⟨48, 2, "x"⟩) ⟨"A", "1 a, b, c"⟩).latitude =
          none ∧
        (rowResult (fun _ => GeoOutcome.found ⟨48, 2, "x"⟩) ⟨"A", "1 a, b, c"⟩).longitude =
          none) :=
  results_coords_iff_success [⟨"A", "1 a, b, c"⟩] (fun _ => GeoOutcome.found ⟨48, 2, "x"⟩)
    (by
      intro a loc h
      cases h
      decide)
    (rowResult (fun _ => GeoOutcome.found ⟨48, 2, "x"⟩) ⟨"A", "1 a, b, c"⟩) (by decide)

/-- C2 (counterexample): on a one-record batch whose provider call
raises, the record ends with status `"Error: service down"` after
exactly one geocode call — it is not retried against any further
provider, the error counter is bumped, and processing simply ends,
contradicting the claimed switch-and-retry behavior. -/
theorem no_provider_switch_on_error_concrete :
    process_addresses [⟨"A", "1 Main St, Paris, FR"⟩] (fun _ => GeoOutcome.err "service down") =
      ([⟨"A", "1 Main St, Paris, FR", none, none, "Error: service down", none,
          some "service down"⟩],
       ⟨0, 0, 0, 1⟩, ["1 Main St, Paris, FR"]) ∧
    (process_addresses [⟨"A", "1 Main St, Paris, FR"⟩]
        (fun _ => GeoOutcome.err "service down")).2.2.length = 1 := by
  decide

/-- C2 (amended): provider fallback exists only at initialization —
`init_geocoder` returns the Nominatim function whenever its
construction succeeds, falls back to the GoogleV3 function only when
Nominatim construction fails, a Google key is present and the GoogleV3
construction succeeds, and otherwise returns `None` so the batch never
starts. During the batch a single geocode function is used for every
record: each valid record triggers exactly one call to it, a call that
raises marks that record `"Error: " ++ detail` with no retry and no
provider switch, and processing continues. -/
theorem provider_error_no_switch_no_retry (df : List Row) (geocode : String → GeoOutcome) :
    (process_addresses df geocode).2.2 = df.flatMap (rowCalls geocode) ∧
    (∀ row, rowCalls geocode row =
      if is_valid_address (strip row.address) then [strip row.address] else []) ∧
    (∀ row e, is_valid_address (strip row.address) = true →
      geocode (strip row.address) = GeoOutcome.err e →
      (rowResult geocode row).status = "Error: " ++ e ∧
      rowCalls geocode row = [strip row.address]) ∧
    (∀ (key : Option String) (googleOk : Bool) (nf gf : String → GeoOutcome),
      init_geocoder true key googleOk nf gf = some nf) ∧
    (∀ (k : String) (nf gf : String → GeoOutcome),
      init_geocoder false (some k) true nf gf = some gf) ∧
    (∀ (k : String) (nf gf : String → GeoOutcome),
      init_geocoder false (some k) false nf gf = none) ∧
    (∀ (googleOk : Bool) (nf gf : String → GeoOutcome),
      init_geocoder false none googleOk nf gf = none) := by
  refine ⟨processLoop_calls geocode df stats0, rowCalls_eq geocode, ?_,
    fun key googleOk nf gf => rfl, fun k nf gf => rfl, fun k nf gf => rfl,
    fun googleOk nf gf => rfl⟩
  intro row e hv hg
  constructor
  · show ((processRow geocode row stats0).1).status = "Error: " ++ e
    rw [processRow_err geocode row stats0 e hv hg]
  · rw [rowCalls_eq]
    simp [hv]

/-- C2 amended (witness): a record whose geocode call raises
`"service down"` ends with that error status and exactly one call. -/
theorem provider_error_no_switch_no_retry_witness :
    (rowResult (fun _ => GeoOutcome.err "service down")
        ⟨"A", "1 Main St, Paris, FR"⟩).status = "Error: " ++ "service down" ∧
    rowCalls (fun _ => GeoOutcome.err "service down") ⟨"A", "1 Main St, Paris, FR"⟩ =
      [strip "1 Main St, Paris, FR"] :=
  (provider_error_no_switch_no_retry [⟨"A", "1 Main St, Paris, FR"⟩]
      (fun _ => GeoOutcome.err "service down")).2.2.1
    ⟨"A", "1 Main St, Paris, FR"⟩ "service down" (by decide) rfl

/-- C6: with a usable geocoder the batch runs to completion — the whole
input is processed, the statistics and both the success and failure
partitions are produced, and the two partitions exhaust the results. -/
theorem batch_completes_with_partitions (geocoderInit : Option (String → GeoOutcome))
    (df : List Row) (geocode : String → GeoOutcome) (h : geocoderInit = some geocode) :
    mainProcess geocoderInit df =
      some ((process_addresses df geocode).1, (process_addresses df geocode).2.1,
        (process_addresses df geocode).2.2, successSet (process_addresses df geocode).1,
        failureSet (process_addresses df geocode).1) ∧
    (process_addresses df geocode).1.length = df.length ∧
    (successSet (process_addresses df geocode).1).length +
      (failureSet (process_addresses df geocode).1).length = df.length := by
  subst h
  have hlen : (process_addresses df geocode).1.length = df.length := by
    rw [show (process_addresses df geocode).1 = df.map (rowResult geocode) from
      processLoop_results geocode df stats0, List.length_map]
  refine ⟨rfl, hlen, ?_⟩
  have hpart : (process_addresses df geocode).1.length =
      ((process_addresses df geocode).1.filter (fun r => r.status == "Success")).length +
      ((process_addresses df geocode).1.filter
        (fun r => !(r.status == "Success"))).length :=
    List.length_eq_length_filter_add (fun r => r.status == "Success")
  rw [successSet, failureSet, ← hpart]
  exact hlen

/-- C6 (witness): instantiated on a one-record batch with a usable
geocoder that finds nothing. -/
theorem batch_completes_with_partitions_witness :
    mainProcess (some (fun _ => GeoOutcome.notFound)) [⟨"A", "1 a, b, c"⟩] =
      some ((process_addresses [⟨"A", "1 a, b, c"⟩] (fun _ => GeoOutcome.notFound)).1,
        (process_addresses [⟨"A", "1 a, b, c"⟩] (fun _ => GeoOutcome.notFound)).2.1,
        (process_addresses [⟨"A", "1 a, b, c"⟩] (fun _ => GeoOutcome.notFound)).2.2,
        successSet (process_addresses [⟨"A", "1 a, b, c"⟩] (fun _ => GeoOutcome.notFound)).1,
        failureSet
          (process_addresses [⟨"A", "1 a, b, c"⟩] (fun _ => GeoOutcome.notFound)).1) ∧
    (process_addresses [⟨"A", "1 a, b, c"⟩] (fun _ => GeoOutcome.notFound)).1.length =
      ([⟨"A", "1 a, b, c"⟩] : List Row).length ∧
    (successSet
        (process_addresses [⟨"A", "1 a, b, c"⟩] (fun _ => GeoOutcome.notFound)).1).length +
      (failureSet
        (process_addresses [⟨"A", "1 a, b, c"⟩] (fun _ => GeoOutcome.notFound)).1).length =
      ([⟨"A", "1 a, b, c"⟩] : List Row).length :=
  batch_completes_with_partitions (some (fun _ => GeoOutcome.notFound)) [⟨"A", "1 a, b, c"⟩]
    (fun _ => GeoOutcome.notFound) rfl

/-- C7: clustering an empty list of points yields no assignments, and a
single point with `minPoints ≥ 2` is noise (`-1`), for every metric and
every epsilon — one assignment per input point. -/
theorem cluster_empty_or_single_noise (distKm : Coordinates → Coordinates → ℚ)
    (p : Coordinates) (epsilonKm : ℚ) (minPoints : Nat) (h : 2 ≤ minPoints) :
    cluster distKm [] epsilonKm minPoints = [] ∧
    cluster distKm [p] epsilonKm minPoints = [-1] := by
  constructor
  · rfl
  · have hn : (nbrs distKm [p] epsilonKm 0).length ≤ 1 := by
      have hf := List.length_filter_le
        (fun j => decide (distKm (([p] : List Coordinates).getD 0 ⟨0, 0⟩)
          (([p] : List Coordinates).getD j ⟨0, 0⟩) ≤ epsilonKm)) (List.range 1)
      simpa [nbrs] using hf
    have hcore : isCorePt distKm [p] epsilonKm minPoints 0 = false := by
      unfold isCorePt
      exact decide_eq_false (by omega)
    have hcores : corePts distKm [p] epsilonKm minPoints = [] := by
      unfold corePts
      rw [show List.range ([p] : List Coordinates).length = [0] from rfl]
      simp [List.filter_cons, hcore]
    unfold cluster
    rw [show List.range ([p] : List Coordinates).length = [0] from rfl, hcores]
    rfl

/-- C7 (witness): the constant-zero metric with epsilon 1 and
`minPoints = 2` on the empty input and on one point at the origin. -/
theorem cluster_empty_or_single_noise_witness :
    2 ≤ 2 ∧
    (cluster (fun _ _ => 0) [] 1 2 = [] ∧ cluster (fun _ _ => 0) [⟨0, 0⟩] 1 2 = [-1]) :=
  ⟨by decide, cluster_empty_or_single_noise (fun _ _ => 0) ⟨0, 0⟩ 1 2 (by decide)⟩

end AddressMapper
